import Mathlib

/-!
Shallow embedding of `src/backend/train_model.py` (AccessGuru ML pipeline).

Strings are modelled as Lean `String` (in this toolchain a list of
characters); Python's ASCII-range `str.lower`/`str.upper`/`str.strip`
and `str.split()` are reproduced on character lists.  `re.search` is
modelled by trying the pattern at every start position from the left,
exactly as the Python engine does for the simple patterns the source
uses.  Python floats extracted from text are modelled as exact `Rat`
values; `NaN` (a missing numeric) is modelled as `none`.  A Python
exception is modelled as `Except.error`.
-/

/-- Python `str.lower` for the ASCII range (the source only lower-cases
ASCII data). -/
def pyLower (s : String) : String := String.mk (s.toList.map Char.toLower)

/-- Python `str.upper` for the ASCII range. -/
def pyUpper (s : String) : String := String.mk (s.toList.map Char.toUpper)

/-- Python's whitespace set for `str.split()` / `str.strip()` (ASCII). -/
def pyIsSpace (c : Char) : Bool :=
  c = ' ' || c = '\t' || c = '\n' || c = '\r' || c = Char.ofNat 11 || c = Char.ofNat 12

/-- Python `str.strip()`: drop leading and trailing whitespace. -/
def pyStrip (s : String) : String :=
  String.mk (((s.toList.dropWhile pyIsSpace).reverse.dropWhile pyIsSpace).reverse)

/-- Helper for Python `str.split()`: accumulate maximal nonempty runs of
non-whitespace characters. -/
def splitWordsAux : List Char → List Char → List (List Char)
  | [], acc => if acc = [] then [] else [acc.reverse]
  | c :: rest, acc =>
    if pyIsSpace c then
      if acc = [] then splitWordsAux rest [] else acc.reverse :: splitWordsAux rest []
    else splitWordsAux rest (c :: acc)

/-- Python `len(s.split())`: number of whitespace-delimited words. -/
def pyWordCount (s : String) : Nat := (splitWordsAux s.toList []).length

/-- Python `haystack.count(needle)` for a nonempty needle: non-overlapping
occurrences, scanning left to right.  The fuel argument (always called
with the length of the list plus one) only makes the recursion
structural; each step strictly shortens the list, so the fuel is never
exhausted before the scan ends. -/
def countSubFuel (pat : List Char) : Nat → List Char → Nat
  | 0, _ => 0
  | _ + 1, [] => 0
  | fuel + 1, c :: rest =>
    if pat.isPrefixOf (c :: rest) then
      1 + countSubFuel pat fuel ((c :: rest).drop pat.length)
    else countSubFuel pat fuel rest

/-- Python `needle in haystack` and `haystack.count` wrappers. -/
def pyCountSub (s : String) (pat : String) : Nat :=
  countSubFuel pat.toList (s.toList.length + 1) s.toList

/-- Whether `pat` occurs as a contiguous sublist of `l` (the empty
pattern occurs everywhere, as Python's `"" in s` is true). -/
def listIsSub (pat : List Char) : List Char → Bool
  | [] => pat.isEmpty
  | c :: rest => pat.isPrefixOf (c :: rest) || listIsSub pat rest

/-- Python `pat in s` (substring membership). -/
def containsSub (s : String) (pat : String) : Bool :=
  listIsSub pat.toList s.toList

/-- Python `s.count(c)` for a single character. -/
def pyCountChar (s : String) (c : Char) : Nat :=
  (s.toList.filter (fun x => x = c)).length

/-- The character class `[a-zA-Z0-9]` of the tag regex. -/
def isAlnumChar (c : Char) : Bool := c.isAlpha || c.isDigit

/-- The character class `["\']` (a double or single quote). -/
def quoteChar (c : Char) : Bool := c = Char.ofNat 34 || c = Char.ofNat 39

/-- The character class `[0-9.]` of the numeric regexes. -/
def numDotChar (c : Char) : Bool := c.isDigit || c = '.'

/-- The model of `re.search`: try the matcher at every start position from
the left and keep the first success, as the engine does. -/
def scanFirst (f : List Char → Option (List Char)) : List Char → Option (List Char)
  | [] => none
  | c :: rest =>
    match f (c :: rest) with
    | some r => some r
    | none => scanFirst f rest

/-- Matcher for `<([a-zA-Z0-9]+)` at one position: a `<` followed by at
least one alphanumeric character; the group is the maximal alphanumeric
run. -/
def matchTagAt (l : List Char) : Option (List Char) :=
  match l with
  | [] => none
  | c :: rest =>
    if c = '<' then
      match rest with
      | [] => none
      | d :: _ => if isAlnumChar d then some (rest.takeWhile isAlnumChar) else none
    else none

/-- Lazy group `(.*?)["\']`: the shortest run of non-newline characters up
to a closing quote of either kind (`.` does not match a newline, so a
newline before any quote fails the match at this start position). -/
def lazyCaptureToQuote : List Char → Option (List Char)
  | [] => none
  | c :: rest =>
    if quoteChar c then some []
    else if c = '\n' then none
    else (lazyCaptureToQuote rest).map (fun t => c :: t)

/-- Matcher for `alt=["\'](.*?)["\']` at one position. -/
def matchAltAt (l : List Char) : Option (List Char) :=
  if (String.toList ("alt=")).isPrefixOf l then
    match l.drop 4 with
    | [] => none
    | q :: tail => if quoteChar q then lazyCaptureToQuote tail else none
  else none

/-- The literal `contrastratio':` of the contrast-ratio regex (the
apostrophe written as `Char.ofNat 39`). -/
def contrastKey : List Char := String.toList ("contrastratio") ++ [Char.ofNat 39, ':']

/-- The literal `fontsize':` of the font-size regex. -/
def fontKey : List Char := String.toList ("fontsize") ++ [Char.ofNat 39, ':']

/-- Matcher for `contrastratio':\s*([0-9.]+)` at one position. -/
def matchContrastAt (l : List Char) : Option (List Char) :=
  if contrastKey.isPrefixOf l then
    let num := ((l.drop contrastKey.length).dropWhile pyIsSpace).takeWhile numDotChar
    if num = [] then none else some num
  else none

/-- Matcher for `fontsize':\s*['\"]([0-9.]+)` at one position. -/
def matchFontAt (l : List Char) : Option (List Char) :=
  if fontKey.isPrefixOf l then
    match (l.drop fontKey.length).dropWhile pyIsSpace with
    | [] => none
    | q :: tail =>
      if quoteChar q then
        let num := tail.takeWhile numDotChar
        if num = [] then none else some num
      else none
  else none

/-- Decimal value of a digit list. -/
def natOfDigits (l : List Char) : Nat :=
  l.foldl (fun acc c => acc * 10 + (c.toNat - 48)) 0

/-- Value of a well-formed `[0-9.]` token (at most one dot, at least one
digit) as an exact rational. -/
def ratOfNumDot (l : List Char) : Rat :=
  let ip := l.takeWhile Char.isDigit
  let fp := ((l.dropWhile Char.isDigit).drop 1).takeWhile Char.isDigit
  (natOfDigits ip : Rat) + (natOfDigits fp : Rat) / ((10 : Rat) ^ fp.length)

/-- Python `float(s)` for a token drawn from `[0-9.]+`: it succeeds
exactly when the token has at most one dot and at least one digit
(`float("1.2.3")` and `float(".")` raise `ValueError`). -/
def pyFloatOfNumDot (l : List Char) : Option Rat :=
  if (l.filter (fun c => c = '.')).length ≤ 1 ∧ l.any Char.isDigit then
    some (ratOfNumDot l)
  else none

/-- Conversion of an optional regex group to an optional float, as the
source writes `float(m.group(1)) if m else np.nan`: no match gives `NaN`
(modelled `none`); a match that `float` rejects raises. -/
def parseOptFloat : Option (List Char) → Except String (Option Rat)
  | none => Except.ok none
  | some l =>
    match pyFloatOfNumDot l with
    | some v => Except.ok (some v)
    | none => Except.error ("ValueError: could not convert string to float")

/-- One raw input row, restricted to the fields `extract_everything`
reads (train_model.py line 29). -/
structure Row where
  affected_html_elements : String
  supplementary_information : String
  violation_name : String
  wcag_reference : String
  deriving Repr, DecidableEq

/-- The `pd.Series` returned by `extract_everything` (lines 52-85).
`contrast_ratio` and `font_size` are `Option Rat`, `none` standing for
`np.nan`.  The Python keys `has_class` and `has_redundant_prefix` are
spelled `has_class_attr` and `has_redundant_prefix_flag` here. -/
structure FeatureRow where
  html_tag : String
  snippet_len : Nat
  snippet_word_count : Nat
  tag_count : Nat
  word_count : Nat
  is_button_or_link : Nat
  has_id : Nat
  has_class_attr : Nat
  has_role_attr : Nat
  has_tabindex : Nat
  is_img_or_svg : Nat
  has_alt_attr : Nat
  is_alt_empty : Nat
  alt_word_count : Nat
  alt_is_generic : Nat
  alt_is_filename : Nat
  has_redundant_prefix_flag : Nat
  is_aria_hidden : Nat
  has_aria_label : Nat
  contrast_ratio : Option Rat
  font_size : Option Rat
  is_aria_related : Nat
  aria_density : Nat
  supp_info_len : Nat
  wcag_level : Nat
  deriving Repr, DecidableEq

/-- The fixed placeholder set of line 46. -/
def placeholderSet : List String :=
  [("alt"), ("description"), ("label"), ("placeholder"), ("none"),
   ("image"), ("spacer"), ("icon"), ("dot")]

/-- The filename suffixes of the `alt_is_filename` regex (line 71); the
`$` anchor reduces to a suffix test because the alt value is stripped. -/
def filenameSuffixes : List String :=
  [(".jpg"), (".png"), (".gif"), (".jpeg"), (".svg"), (".webp")]

/-- The boilerplate phrases of `redundant_pat` (line 45). -/
def redundantPhrases : List String :=
  [("image of"), ("photo of"), ("picture of"), ("link to"),
   ("click here"), ("button"), ("graphic of")]

/-- The trimmed alt-attribute value of line 41-42: the group of the first
`alt=["\'](.*?)["\']` match, stripped; the empty string when there is no
match. -/
def altContentOf (html : String) : String :=
  match scanFirst matchAltAt html.toList with
  | some cap => pyStrip (String.mk cap)
  | none => ("")

/-- The first opening-tag name of line 37-38, default `unknown`. -/
def htmlTagOf (html : String) : String :=
  match scanFirst matchTagAt html.toList with
  | some t => String.mk t
  | none => ("unknown")

/-- The feature series of train_model.py lines 52-85 for one row, given
the two parsed numeric values. -/
def featureRowOf (row : Row) (cr fs : Option Rat) : FeatureRow :=
  let html := pyLower row.affected_html_elements
  let supp := pyLower row.supplementary_information
  let v_name := pyLower row.violation_name
  let wcag := pyUpper row.wcag_reference
  let tag := htmlTagOf html
  let alt_content := altContentOf html
  {     html_tag := tag
        snippet_len := html.length
        snippet_word_count := pyWordCount html
        tag_count := pyCountChar html '<'
        word_count := pyWordCount html
        is_button_or_link := if containsSub html ("<a") || containsSub html ("<button") then 1 else 0
        has_id := if containsSub html ("id=") then 1 else 0
        has_class_attr := if containsSub html ("class=") then 1 else 0
        has_role_attr := if containsSub html ("role=") then 1 else 0
        has_tabindex := if containsSub html ("tabindex=") then 1 else 0
        is_img_or_svg := if containsSub html ("<img") || containsSub html ("<svg") then 1 else 0
        has_alt_attr := if containsSub html ("alt=") then 1 else 0
        is_alt_empty := if alt_content = ("") ∧ containsSub html ("alt=") then 1 else 0
        alt_word_count := pyWordCount alt_content
        alt_is_generic := if alt_content ∈ placeholderSet then 1 else 0
        alt_is_filename :=
          if filenameSuffixes.any (fun suf => suf.toList.isSuffixOf alt_content.toList) then 1 else 0
        has_redundant_prefix_flag :=
          if redundantPhrases.any (fun p => containsSub html p) then 1 else 0
        is_aria_hidden := if containsSub html ("aria-hidden=\"true\"") then 1 else 0
        has_aria_label := if containsSub html ("aria-label=") then 1 else 0
        contrast_ratio := cr
        font_size := fs
        is_aria_related := if containsSub v_name ("aria") || containsSub supp ("aria") then 1 else 0
        aria_density := pyCountSub supp ("aria-")
        supp_info_len := supp.length
        wcag_level :=
          if containsSub wcag ("AAA") then 3
          else if containsSub wcag ("AA") then 2
          else if containsSub wcag ("A") then 1
          else 0 }

/-- Embedding of `AccessibilityFeatureExtractor.extract_everything`
(train_model.py lines 29-85).  The only failing step is `float` on a
matched `contrastratio`/`fontsize` token (lines 77-78); every other
field is total. -/
def extract_everything (row : Row) : Except String FeatureRow :=
  let supp := pyLower row.supplementary_information
  match parseOptFloat (scanFirst matchContrastAt supp.toList) with
  | Except.error e => Except.error e
  | Except.ok cr =>
    match parseOptFloat (scanFirst matchFontAt supp.toList) with
    | Except.error e => Except.error e
    | Except.ok fs => Except.ok (featureRowOf row cr fs)

/-- Token of the markup lexer modelling `html.parser`: an opening tag
(lower-cased name, raw attribute text), a closing tag, or a text run. -/
inductive HTok where
  | openT (name : String) (attrs : String) : HTok
  | closeT (name : String) : HTok
  | textT (s : String) : HTok
  deriving Repr, DecidableEq

/-- Classify the characters between `<` and `>`: `/name...` is a closing
tag, `name...` an opening tag (name lower-cased, as the parser
normalizes tag names); anything else (comment, doctype, stray bracket)
yields no element. -/
def classifyTag (acc : List Char) : Option HTok :=
  match acc with
  | [] => none
  | c :: rest =>
    if c = '/' then some (HTok.closeT (String.mk ((rest.takeWhile isAlnumChar).map Char.toLower)))
    else if isAlnumChar c then
      let name := (c :: rest).takeWhile isAlnumChar
      some (HTok.openT (String.mk (name.map Char.toLower)) (String.mk ((c :: rest).drop name.length)))
    else none

/-- Lexer mode: accumulating text, or accumulating the inside of a tag
(both accumulators reversed). -/
inductive LexMode where
  | text (acc : List Char) : LexMode
  | tag (acc : List Char) : LexMode
  deriving Repr, DecidableEq

/-- One step of the markup lexer. -/
def lexStep (st : List HTok × LexMode) (c : Char) : List HTok × LexMode :=
  match st.2 with
  | LexMode.text acc =>
    if c = '<' then
      (if acc = [] then st.1 else HTok.textT (String.mk acc.reverse) :: st.1, LexMode.tag [])
    else (st.1, LexMode.text (c :: acc))
  | LexMode.tag acc =>
    if c = '>' then
      (match classifyTag acc.reverse with
       | some t => t :: st.1
       | none => st.1, LexMode.text [])
    else (st.1, LexMode.tag (c :: acc))

/-- Tolerant tokenization of a markup string: a model of
`BeautifulSoup(html, "html.parser")` for the flat fragments this
dataset holds.  Malformed markup never fails: an unclosed tag is
dropped, stray text becomes a text token. -/
def lexHtml (s : String) : List HTok :=
  let fin := s.toList.foldl lexStep ([], LexMode.text [])
  (match fin.2 with
   | LexMode.text acc => if acc = [] then fin.1 else HTok.textT (String.mk acc.reverse) :: fin.1
   | LexMode.tag _ => fin.1).reverse

/-- One parsed element: lower-cased tag name, raw attribute text, and
the text immediately following its opening tag (the model of
`t.get_text()` for the flat fragments involved). -/
structure BElem where
  name : String
  attrs : String
  itext : String
  deriving Repr, DecidableEq

/-- Whether a token is a text run. -/
def isTextTok : HTok → Bool
  | HTok.textT _ => true
  | _ => false

/-- Text carried by a token. -/
def textOfTok : HTok → String
  | HTok.textT s => s
  | _ => ("")

/-- The elements of a token stream (the model of `soup.find_all()`):
every opening tag, carrying the text tokens that follow it. -/
def elemsOf : List HTok → List BElem
  | [] => []
  | HTok.openT n a :: rest =>
    { name := n, attrs := a,
      itext := String.join ((rest.takeWhile isTextTok).map textOfTok) } :: elemsOf rest
  | _ :: rest => elemsOf rest

/-- Whether the raw attribute text of a tag carries a `style` attribute
(the model of `soup.find(attrs=\x7b'style': True\x7d)` on one element). -/
def hasStyleAttr (attrs : String) : Bool :=
  (splitWordsAux attrs.toList []).any
    (fun w => w = String.toList ("style") || (String.toList ("style=")).isPrefixOf w)

/-- The dictionary returned by `extract_html_features` (lines 94-107).
`avg_text_len_per_tag` is a rational mean. -/
structure HtmlFeatures where
  num_links : Nat
  num_images : Nat
  num_buttons : Nat
  num_inputs : Nat
  num_lists : Nat
  num_headings : Nat
  has_form : Nat
  num_divs : Nat
  num_spans : Nat
  avg_text_len_per_tag : Rat
  has_inline_style : Nat
  has_script_or_style : Nat
  deriving Repr, DecidableEq

/-- Count of elements whose tag name is one of `names`
(`len(soup.find_all([...]))`). -/
def countByName (es : List BElem) (names : List String) : Nat :=
  (es.filter (fun e => names.contains e.name)).length

/-- Embedding of `AccessibilityFeatureExtractor.extract_html_features`
(train_model.py lines 87-107).  The input is `Option String`: `none`
models a missing (`NaN`) value, turned into the empty string by the
`pd.isna` guard.  The mean text length is taken only when the parse
found at least one element, exactly as the source guards it. -/
def extract_html_features (html : Option String) : HtmlFeatures :=
  let s := Option.getD html ("")
  let es := elemsOf (lexHtml s)
  { num_links := countByName es [("a")]
    num_images := countByName es [("img"), ("svg")]
    num_buttons := countByName es [("button")]
    num_inputs := countByName es [("input")]
    num_lists := countByName es [("ul"), ("ol"), ("li")]
    num_headings := countByName es [("h1"), ("h2"), ("h3"), ("h4"), ("h5"), ("h6")]
    has_form := if es.any (fun e => e.name = ("form")) then 1 else 0
    num_divs := countByName es [("div")]
    num_spans := countByName es [("span")]
    avg_text_len_per_tag :=
      if es = [] then 0
      else ((es.map (fun e => (e.itext.length : Rat))).sum) / (es.length : Rat)
    has_inline_style := if es.any (fun e => hasStyleAttr e.attrs) then 1 else 0
    has_script_or_style :=
      if es.any (fun e => e.name = ("script") || e.name = ("style")) then 1 else 0 }

/-- The all-zero feature dictionary. -/
def zeroHtmlFeatures : HtmlFeatures :=
  { num_links := 0, num_images := 0, num_buttons := 0, num_inputs := 0,
    num_lists := 0, num_headings := 0, has_form := 0, num_divs := 0,
    num_spans := 0, avg_text_len_per_tag := 0, has_inline_style := 0,
    has_script_or_style := 0 }

/-- The dict literal `score_mapping = \x7b2: 0, 3: 1, 4: 2, 5: 3\x7d`
(train_model.py line 187). -/
def score_mapping : List (Int × Int) := [(2, 0), (3, 1), (4, 2), (5, 3)]

/-- The dict literal `reverse_mapping = \x7b0: 2, 1: 3, 2: 4, 3: 5\x7d`
(line 188). -/
def reverse_mapping : List (Int × Int) := [(0, 2), (1, 3), (2, 4), (3, 5)]

/-- Python dict lookup: the value at a key, `none` when the key is
absent. -/
def dictGet (d : List (Int × Int)) (k : Int) : Option Int :=
  (d.find? (fun p => p.1 = k)).map Prod.snd

/-- Pandas `Series.map(dict)` (lines 197-198): every value is looked up
in the dict; a value absent from the dict becomes `NaN` (modelled
`none`) — no exception is raised. -/
def seriesMapDict (d : List (Int × Int)) (ys : List Int) : List (Option Int) :=
  ys.map (fun y => dictGet d y)

/-- The fixed candidate feature list of train_model.py lines 161-177, in
its declared order. -/
def featureCandidates : List String :=
  [("tag_enc"), ("snippet_len"), ("word_count"), ("tag_count"),
   ("is_button_or_link"), ("is_img_or_svg"), ("has_alt_attr"),
   ("has_aria_label"), ("has_role_attr"), ("is_aria_related"),
   ("contrast_ratio"), ("font_size"),
   ("num_links"), ("num_images"), ("num_buttons"), ("num_inputs"), ("num_lists"),
   ("num_headings"), ("has_form"), ("num_divs"), ("num_spans"),
   ("avg_text_len_per_tag"), ("has_inline_style"), ("has_script_or_style")]

/-- The column names the `extract_everything` series contributes (lines
52-85), in series order. -/
def markupFeatureCols : List String :=
  [("html_tag"), ("snippet_len"), ("snippet_word_count"), ("tag_count"),
   ("word_count"), ("is_button_or_link"), ("has_id"), ("has_class"),
   ("has_role_attr"), ("has_tabindex"), ("is_img_or_svg"), ("has_alt_attr"),
   ("is_alt_empty"), ("alt_word_count"), ("alt_is_generic"),
   ("alt_is_filename"), ("has_redundant_prefix"), ("is_aria_hidden"),
   ("has_aria_label"), ("contrast_ratio"), ("font_size"),
   ("is_aria_related"), ("aria_density"), ("supp_info_len"), ("wcag_level")]

/-- The column names the `extract_html_features` dictionary contributes
(lines 94-107). -/
def htmlFeatureCols : List String :=
  [("num_links"), ("num_images"), ("num_buttons"), ("num_inputs"),
   ("num_lists"), ("num_headings"), ("has_form"), ("num_divs"),
   ("num_spans"), ("avg_text_len_per_tag"), ("has_inline_style"),
   ("has_script_or_style")]

/-- The columns assigned one by one in lines 131-158. -/
def derivedCols : List String :=
  [("impact_numeric"), ("severity_score"), ("domain_encoded"),
   ("url_depth"), ("url_len"), ("is_gov"), ("is_edu"), ("is_org"),
   ("violation_id_enc"), ("tag_enc")]

/-- The columns of the assembled table right before feature selection
(line 180): whatever the CSV brought in, plus everything the pipeline
appended. -/
def assembledCols (csvCols : List String) : List String :=
  csvCols ++ derivedCols ++ markupFeatureCols ++ htmlFeatureCols

/-- The filter of line 180:
`available_features = [f for f in features if f in df.columns]`. -/
def availableFeatures (csvCols : List String) : List String :=
  featureCandidates.filter (fun f => (assembledCols csvCols).contains f)

/-- One row of `X = df[available_features].fillna(0)` (line 183): the
selected columns in selection order, missing numerics filled with 0. -/
def xRow (csvCols : List String) (row : String → Option Rat) : List (String × Rat) :=
  (availableFeatures csvCols).map (fun c => (c, Option.getD (row c) 0))

/-- The persisted artifacts of lines 225-232, restricted to the fields
this development models (the three encoder vocabularies are opaque
library state). -/
structure Artifacts where
  feature_names : List String
  score_map : List (Int × Int)
  reverse_map : List (Int × Int)
  deriving Repr, DecidableEq

/-- The artifact dictionary as line 226 builds it. -/
def artifactsOf (csvCols : List String) : Artifacts :=
  { feature_names := availableFeatures csvCols,
    score_map := score_mapping,
    reverse_map := reverse_mapping }

/-- Matcher for the regex `.gov` (and the like) somewhere in a string:
a position holding any non-newline character followed by the word.
Pandas `Series.str.contains(pat)` treats `pat` as a regular expression,
so the leading `.` is a wildcard, not a literal dot. -/
def dotThenWord (w : List Char) : List Char → Bool
  | [] => false
  | c :: rest => (decide (c ≠ '\n') && w.isPrefixOf rest) || dotThenWord w rest

/-- Embedding of `df['web_URL'].str.contains(pat, case=False, na=False)`
(lines 152-154) for the patterns `.gov`, `.edu`, `.org`: the pattern is
a regex, matched case-insensitively; a missing URL gives `False`. -/
def urlFlag (w : String) (url : Option String) : Nat :=
  match url with
  | none => 0
  | some u => if dotThenWord w.toList (pyLower u).toList then 1 else 0

/-- The `is_gov` column (line 152). -/
def is_gov (url : Option String) : Nat := urlFlag ("gov") url

/-- The `is_edu` column (line 153). -/
def is_edu (url : Option String) : Nat := urlFlag ("edu") url

/-- The `is_org` column (line 154). -/
def is_org (url : Option String) : Nat := urlFlag ("org") url

/-- The four partitions `train_test_split` returns (line 192), as the
pipeline holds them right after the split. -/
structure SplitData where
  x_train : List (List Rat)
  x_test : List (List Rat)
  y_train : List Int
  y_test : List Int
  deriving Repr, DecidableEq

/-- The pipeline state after label remapping and SMOTE (lines 196-203). -/
structure PipelineTail where
  x_train_res : List (List Rat)
  y_train_res : List (Option Int)
  x_test : List (List Rat)
  y_test : List Int
  y_test_mapped : List (Option Int)
  deriving Repr, DecidableEq

/-- Embedding of lines 196-203: map the train and test labels through
`score_mapping`, then hand only the training partition to the balancer
(`smote.fit_resample(X_train, y_train_mapped)`).  The balancer itself is
a library black box, taken here as an arbitrary function; the test
variables are never reassigned. -/
def afterBalance (s : SplitData)
    (smoteFn : List (List Rat) → List (Option Int) → List (List Rat) × List (Option Int)) :
    PipelineTail :=
  let y_train_mapped := seriesMapDict score_mapping s.y_train
  let y_test_mapped := seriesMapDict score_mapping s.y_test
  let res := smoteFn s.x_train y_train_mapped
  { x_train_res := res.1, y_train_res := res.2,
    x_test := s.x_test, y_test := s.y_test, y_test_mapped := y_test_mapped }

/-- A row whose only populated field is the WCAG reference. -/
def rowWithWcag (w : String) : Row :=
  { affected_html_elements := (""), supplementary_information := (""),
    violation_name := (""), wcag_reference := w }

/-- A row whose only populated field is the HTML fragment. -/
def rowWithHtml (h : String) : Row :=
  { affected_html_elements := h, supplementary_information := (""),
    violation_name := (""), wcag_reference := ("") }

/-- The `wcag_level` feature of a row carrying only a WCAG reference. -/
def wcagOf (w : String) : Option Nat :=
  (extract_everything (rowWithWcag w)).toOption.map (fun r => r.wcag_level)

/-- A numeric feature of an extraction, `none` when the extraction
raised. -/
def okField (f : FeatureRow → Nat) (row : Row) : Option Nat :=
  (extract_everything row).toOption.map f

/-- Whether an `Except` result is a success. -/
def exceptOk : Except String FeatureRow → Bool
  | Except.ok _ => true
  | Except.error _ => false

/-- The supplementary-information string `contrastratio': 1.2.3` (the
apostrophe written by code point): its `contrastratio` token matches the
numeric regex but is not a float literal. -/
def badSupp : String :=
  String.mk (contrastKey ++ [' ', '1', '.', '2', '.', '3'])

/-- The record whose extraction hits `float("1.2.3")`. -/
def badSuppRow : Row :=
  { affected_html_elements := (""), supplementary_information := badSupp,
    violation_name := (""), wcag_reference := ("") }

/-- The regex-match relation `.w` (wildcard then word) stated
declaratively: some non-newline character immediately precedes an
occurrence of `w`. -/
def RegexDotWordMatch (w : String) (s : String) : Prop :=
  ∃ pre c post, s.toList = pre ++ c :: (w.toList ++ post) ∧ c ≠ '\n'

/-! Theorems -/

/-- Every successful extraction is the feature series of its row for
some pair of parsed numerics. -/
theorem extract_ok_shape (row : Row) (r : FeatureRow)
    (h : extract_everything row = Except.ok r) :
    ∃ cr fs, r = featureRowOf row cr fs := by
  unfold extract_everything at h
  simp only at h
  split at h
  · exact absurd h (by simp)
  · split at h
    · exact absurd h (by simp)
    · exact ⟨_, _, ((Except.ok.injEq _ _).mp h).symm⟩

/-- C1: the score remapping is the fixed bijection with its precomputed
inverse: composing forward then inverse is the identity on the labels
2..5, and inverse then forward is the identity on the class indices
0..3. -/
theorem claim1_score_roundtrip :
    (∀ x, x ∈ ([2, 3, 4, 5] : List Int) →
      (dictGet score_mapping x).bind (dictGet reverse_mapping) = some x) ∧
    (∀ c, c ∈ ([0, 1, 2, 3] : List Int) →
      (dictGet reverse_mapping c).bind (dictGet score_mapping) = some c) := by
  decide

/-- C2: looking a label outside 2..5 up in the score dict yields no
entry, and `Series.map(score_mapping)` therefore silently produces a
missing value (`NaN`) for such a row while mapping the others — no step
of the remapping raises. -/
theorem claim2_map_silent_nan :
    dictGet score_mapping 6 = none ∧
    seriesMapDict score_mapping [2, 6, 3] = [some 0, none, some 1] ∧
    (∀ y : Int, y ∉ ([2, 3, 4, 5] : List Int) → dictGet score_mapping y = none) := by
  refine ⟨by decide, by decide, ?_⟩
  intro y hy
  simp only [List.mem_cons, List.not_mem_nil, or_false, not_or] at hy
  obtain ⟨h2, h3, h4, h5⟩ := hy
  simp [dictGet, score_mapping, List.find?, Ne.symm h2, Ne.symm h3, Ne.symm h4, Ne.symm h5]

/-- C3 counterexample: for the WCAG reference `N/A` the extracted
`wcag_level` is 1, not 0 — the upper-cased string `N/A` contains the
letter `A`, so the third branch of the priority chain fires. -/
theorem claim3_na_counterexample :
    wcagOf ("N/A") = some 1 ∧ wcagOf ("N/A") ≠ some 0 := by
  decide

/-- C3 amended: `wcag_level` is 3 if the upper-cased reference contains
`AAA`, else 2 if it contains `AA`, else 1 if it contains `A`, else 0,
in that priority order; the instances give 3, 2 and 1 for the three
WCAG 2.1 references — and 1, not 0, for `N/A`, which contains `A`. -/
theorem claim3_wcag_priority :
    (∀ row r, extract_everything row = Except.ok r →
       r.wcag_level =
         (if containsSub (pyUpper row.wcag_reference) ("AAA") then 3
          else if containsSub (pyUpper row.wcag_reference) ("AA") then 2
          else if containsSub (pyUpper row.wcag_reference) ("A") then 1
          else 0)) ∧
    wcagOf ("WCAG 2.1 AAA") = some 3 ∧
    wcagOf ("WCAG 2.1 AA") = some 2 ∧
    wcagOf ("WCAG 2.1 A") = some 1 ∧
    wcagOf ("N/A") = some 1 := by
  refine ⟨?_, by decide, by decide, by decide, by decide⟩
  intro row r h
  obtain ⟨cr, fs, rfl⟩ := extract_ok_shape row r h
  rfl

/-- C4: evaluation of the extractor at a record whose supplementary
information reads `contrastratio': 1.2.3` — the numeric regex captures
`1.2.3`, which `float` rejects, so the extraction raises instead of
returning a feature row. -/
theorem claim4_float_raises :
    exceptOk (extract_everything badSuppRow) = false ∧
    scanFirst matchContrastAt (pyLower badSuppRow.supplementary_information).toList =
      some ['1', '.', '2', '.', '3'] ∧
    pyFloatOfNumDot ['1', '.', '2', '.', '3'] = none := by
  refine ⟨by decide, by decide, by decide⟩

/-- C5: the persisted feature-name list is the candidate list filtered
to the columns present in the assembled table, keeping the declared
order (a sublist of the candidates, containing exactly the candidates
that exist, and omitting an absent candidate rather than failing); and
every row of the selected table carries exactly those keys in that
order. -/
theorem claim5_feature_schema :
    (∀ csvCols, List.Sublist (availableFeatures csvCols) featureCandidates) ∧
    (∀ csvCols f, f ∈ availableFeatures csvCols ↔
       f ∈ featureCandidates ∧ f ∈ assembledCols csvCols) ∧
    (∀ csvCols row, (xRow csvCols row).map Prod.fst = availableFeatures csvCols) ∧
    (∀ csvCols, (artifactsOf csvCols).feature_names = availableFeatures csvCols) := by
  refine ⟨fun c => List.filter_sublist _, fun c f => ?_, fun c row => ?_, fun c => rfl⟩
  · simp [availableFeatures, List.mem_filter, List.elem_iff]
  · rw [xRow, List.map_map]
    exact List.map_id _

/-- C6: `is_alt_empty` is 1 exactly when an `alt=` attribute occurs in
the lower-cased HTML and the trimmed extracted alt value is the empty
string; for the fragment `<img alt="">` this gives `has_alt_attr = 1`,
`is_alt_empty = 1` and `alt_word_count = 0`. -/
theorem claim6_alt_empty :
    (∀ row r, extract_everything row = Except.ok r →
       (r.is_alt_empty = 1 ↔
         (containsSub (pyLower row.affected_html_elements) ("alt=") = true ∧
          altContentOf (pyLower row.affected_html_elements) = ("")))) ∧
    (extract_everything (rowWithHtml ("<img alt=\"\">"))).toOption.map
        (fun r => (r.has_alt_attr, r.is_alt_empty, r.alt_word_count)) =
      some (1, 1, 0) := by
  refine ⟨?_, by decide⟩
  intro row r h
  obtain ⟨cr, fs, rfl⟩ := extract_ok_shape row r h
  show (if altContentOf (pyLower row.affected_html_elements) = ("") ∧
          containsSub (pyLower row.affected_html_elements) ("alt=") then 1 else 0) = 1 ↔ _
  split
  · next hc => simp [hc.1, hc.2]
  · next hc =>
    constructor
    · intro h0; exact absurd h0 (by simp)
    · intro ⟨h1, h2⟩; exact absurd ⟨h2, h1⟩ hc

/-- C7: the structural extractor is total with all-zero defaults: a
missing input and the empty string both yield the all-zero feature
dictionary; in fact any input whose parse holds no element does, and
`avg_text_len_per_tag` is then 0 rather than a division by zero; when
elements exist the mean is the text-length sum divided by the (nonzero)
element count. -/
theorem claim7_structural_defaults :
    extract_html_features none = zeroHtmlFeatures ∧
    extract_html_features (some ("")) = zeroHtmlFeatures ∧
    (∀ h : Option String, elemsOf (lexHtml (Option.getD h (""))) = [] →
       extract_html_features h = zeroHtmlFeatures) ∧
    (∀ h : Option String, elemsOf (lexHtml (Option.getD h (""))) ≠ [] →
       (extract_html_features h).avg_text_len_per_tag *
         ((elemsOf (lexHtml (Option.getD h ("")))).length : Rat) =
       ((elemsOf (lexHtml (Option.getD h ("")))).map
           (fun e => (e.itext.length : Rat))).sum) := by
  have hzero : ∀ h : Option String, elemsOf (lexHtml (Option.getD h (""))) = [] →
      extract_html_features h = zeroHtmlFeatures := by
    intro h he
    unfold extract_html_features
    simp only
    rw [he]
    rfl
  refine ⟨hzero none rfl, hzero (some ("")) rfl, hzero, ?_⟩
  intro h he
  have hlen : ((elemsOf (lexHtml (Option.getD h ("")))).length : Rat) ≠ 0 := by
    exact_mod_cast fun h0 => he (List.length_eq_zero.mp (by exact_mod_cast h0))
  unfold extract_html_features
  simp only
  rw [if_neg he]
  exact div_mul_cancel₀ _ hlen

/-- The scanner for the regex `.w` succeeds exactly when some
non-newline character immediately precedes an occurrence of `w`. -/
theorem dotThenWord_iff (w : List Char) (l : List Char) :
    dotThenWord w l = true ↔
      ∃ pre c post, l = pre ++ c :: (w ++ post) ∧ c ≠ '\n' := by
  induction l with
  | nil =>
    simp only [dotThenWord, Bool.false_eq_true, false_iff]
    rintro ⟨pre, c, post, hl, -⟩
    simp at hl
  | cons a rest ih =>
    simp only [dotThenWord, Bool.or_eq_true, Bool.and_eq_true, decide_eq_true_eq, ih]
    constructor
    · rintro (⟨ha, hp⟩ | ⟨pre, c, post, hrest, hc⟩)
      · obtain ⟨t, ht⟩ := (List.isPrefixOf_iff_prefix.mp hp : w <+: rest)
        exact ⟨[], a, t, by simp [← ht], ha⟩
      · exact ⟨a :: pre, c, post, by simp [hrest], hc⟩
    · rintro ⟨pre, c, post, hl, hc⟩
      cases pre with
      | nil =>
        simp only [List.nil_append, List.cons.injEq] at hl
        exact Or.inl ⟨fun hn => hc (hl.1.symm.trans hn),
          List.isPrefixOf_iff_prefix.mpr ⟨post, hl.2.symm⟩⟩
      | cons b pre =>
        simp only [List.cons_append, List.cons.injEq] at hl
        exact Or.inr ⟨pre, c, post, hl.2, hc⟩

/-- C8 counterexample: the URL `agov.com` holds no literal `.gov`
substring, yet `is_gov` is 1 for it — the pattern handed to
`str.contains` is a regex whose leading dot matches any character. -/
theorem claim8_literal_counterexample :
    is_gov (some ("agov.com")) = 1 ∧
    containsSub (pyLower ("agov.com")) (".gov") = false := by
  decide

/-- C8 amended: `is_gov`, `is_edu`, `is_org` are 1 exactly when the URL
matches the regex `.gov` / `.edu` / `.org` case-insensitively — some
non-newline character immediately followed by the three letters — and a
missing URL yields 0 for each flag. -/
theorem claim8_url_regex :
    (∀ u, (is_gov (some u) = 1 ↔ RegexDotWordMatch ("gov") (pyLower u)) ∧
          (is_edu (some u) = 1 ↔ RegexDotWordMatch ("edu") (pyLower u)) ∧
          (is_org (some u) = 1 ↔ RegexDotWordMatch ("org") (pyLower u))) ∧
    is_gov none = 0 ∧ is_edu none = 0 ∧ is_org none = 0 := by
  have hflag : ∀ (w : String) (u : String),
      (urlFlag w (some u) = 1 ↔ RegexDotWordMatch w (pyLower u)) := by
    intro w u
    show (if dotThenWord w.toList (pyLower u).toList then 1 else 0) = 1 ↔ _
    unfold RegexDotWordMatch
    rw [← dotThenWord_iff w.toList (pyLower u).toList]
    split
    · next hd =>
        simp [String.toList] at hd ⊢
        simp [hd]
    · next hd =>
        simp [String.toList] at hd ⊢
        simp [hd]
  exact ⟨fun u => ⟨hflag ("gov") u, hflag ("edu") u, hflag ("org") u⟩, rfl, rfl, rfl⟩

/-- C9: the balancer touches only the training partition: for any split
and any resampling function, the test features and test labels after
the balancing step are exactly those produced by the split. -/
theorem claim9_test_untouched :
    ∀ (s : SplitData)
      (smoteFn : List (List Rat) → List (Option Int) → List (List Rat) × List (Option Int)),
      (afterBalance s smoteFn).x_test = s.x_test ∧
      (afterBalance s smoteFn).y_test = s.y_test := by
  intro s f
  exact ⟨rfl, rfl⟩

/-- C10: `snippet_word_count` and `word_count` are the same
whitespace-word count of the lower-cased HTML, so the two columns are
duplicates on every successfully extracted row. -/
theorem claim10_word_count_dup :
    ∀ row : Row,
      okField (fun r => r.snippet_word_count) row = okField (fun r => r.word_count) row := by
  intro row
  unfold okField
  cases h : extract_everything row with
  | error e => rfl
  | ok r =>
    obtain ⟨cr, fs, rfl⟩ := extract_ok_shape row r h
    rfl
